import Mathlib

/-!
Shallow embedding of the SyncPlay group-playback coordinator
(time synchronization, command scheduling, drift correction, queue
mirroring) and proofs about its specification claims.

Instants (JavaScript `Date.getTime()` values) are modelled as `Int`
milliseconds.  JavaScript floating-point quantities (tick positions,
playback rates, settings) are modelled as `Rat`.  Methods that mutate
object state are modelled as functions returning the new state together
with a list of emitted side effects.
-/

set_option linter.unusedVariables false

/-! ## Time synchronization (timeSync/core, timeSync/peer, timeSync base) -/

/-- Modelled from the spec: the base `TimeSync` class (rolling window of
ping samples and the per-source conversions) is not part of the sources;
per the spec, `local_to_remote(t) = t + offset_ms`. -/
def TimeSync.localDateToRemote (offsetMs : Int) (t : Int) : Int :=
  t + offsetMs

/-- Modelled from the spec: `remote_to_local(t) = t - offset_ms`. -/
def TimeSync.remoteDateToLocal (offsetMs : Int) (t : Int) : Int :=
  t - offsetMs

/-- Modelled from the spec: a `PingSample` is four instants collected by
one ping round-trip (the base `TimeSync` sampler is not in the sources). -/
structure PingSample where
  requestSent : Int
  requestReceived : Int
  responseSent : Int
  responseReceived : Int
  deriving DecidableEq, Repr

/-- Modelled from the spec:
`rtt = (responseReceived - requestSent) - (responseSent - requestReceived)`. -/
def PingSample.rtt (p : PingSample) : Int :=
  (p.responseReceived - p.requestSent) - (p.responseSent - p.requestReceived)

/-- Modelled from the spec:
`offset = ((requestReceived - requestSent) + (responseSent - responseReceived)) / 2`
(exact division, the JS value is a double). -/
def PingSample.offset (p : PingSample) : Rat :=
  (((p.requestReceived - p.requestSent : Int) : Rat)
    + ((p.responseSent - p.responseReceived : Int) : Rat)) / 2

/-- Timestamps of a ping sample in chronological order: the request is
sent, then received, the response is sent, then received. -/
def PingSample.WellOrdered (p : PingSample) : Prop :=
  p.requestSent ≤ p.requestReceived
    ∧ p.requestReceived ≤ p.responseSent
    ∧ p.responseSent ≤ p.responseReceived

instance (p : PingSample) : Decidable p.WellOrdered := by
  unfold PingSample.WellOrdered; infer_instance

/-- State of a `TimeSyncPeer` (timeSync/peer.js): the base-class offset and
ping towards the peer, plus the peer's own reported offset and ping with
the server (`peerTimeOffset` / `peerPing`). -/
structure TimeSyncPeer where
  timeOffset : Int
  ping : Int
  peerTimeOffset : Int
  peerPing : Int
  deriving DecidableEq, Repr

/-- Embeds `TimeSyncPeer.serverDateToPeer`: `new Date(server.getTime() - this.getPeerTimeOffset())`. -/
def TimeSyncPeer.serverDateToPeer (peer : TimeSyncPeer) (server : Int) : Int :=
  server - peer.peerTimeOffset

/-- Embeds `TimeSyncPeer.peerDateToServer`: `new Date(peer.getTime() + this.getPeerTimeOffset())`. -/
def TimeSyncPeer.peerDateToServer (peer : TimeSyncPeer) (t : Int) : Int :=
  t + peer.peerTimeOffset

/-- State of `TimeSyncCore` (the richer version, with `extraTimeOffset`):
the server time-sync source, the peer sources, the active device and the
user-configured extra offset. -/
structure TimeSyncCore where
  serverTimeOffset : Int
  serverPing : Int
  peers : List (String × TimeSyncPeer)
  activePeerId : String
  extraTimeOffset : Int

/-- Embeds `TimeSyncCore.getPeerById`. -/
def TimeSyncCore.getPeerById (s : TimeSyncCore) (peerId : String) : Option TimeSyncPeer :=
  (s.peers.find? fun e => e.1 = peerId).map Prod.snd

/-- Embeds `TimeSyncCore.offsetDate`: `new Date(date.getTime() + offset)`. -/
def TimeSyncCore.offsetDate (date : Int) (offsetMs : Int) : Int :=
  date + offsetMs

/-- Embeds `TimeSyncCore.remoteDateToLocal` (richer version): converts server time
to local time through the active device; when the active peer is gone it
switches back to `server` and re-invokes itself; the result is finally
offset by `-extraTimeOffset`.  Mutation of `activePeerId` is modelled by
returning the updated state. -/
def TimeSyncCore.remoteDateToLocal (s : TimeSyncCore) (remote : Int) :
    TimeSyncCore × Int :=
  if s.activePeerId = "server" then
    let date := TimeSync.remoteDateToLocal s.serverTimeOffset remote
    (s, TimeSyncCore.offsetDate date (-s.extraTimeOffset))
  else
    match s.getPeerById s.activePeerId with
    | some peer =>
      let peerDate := peer.serverDateToPeer remote
      let date := TimeSync.remoteDateToLocal peer.timeOffset peerDate
      (s, TimeSyncCore.offsetDate date (-s.extraTimeOffset))
    | none =>
      let s' := { s with activePeerId := "server" }
      let inner := TimeSyncCore.remoteDateToLocal s' remote
      (inner.1, TimeSyncCore.offsetDate inner.2 (-s.extraTimeOffset))
termination_by (if s.activePeerId = "server" then 0 else 1)
decreasing_by simp_all

/-- Embeds `TimeSyncCore.localDateToRemote` (richer version): converts local time
to server time through the active device, with the same stale-peer
fallback; the result is finally offset by `+extraTimeOffset`. -/
def TimeSyncCore.localDateToRemote (s : TimeSyncCore) (t : Int) :
    TimeSyncCore × Int :=
  if s.activePeerId = "server" then
    let date := TimeSync.localDateToRemote s.serverTimeOffset t
    (s, TimeSyncCore.offsetDate date s.extraTimeOffset)
  else
    match s.getPeerById s.activePeerId with
    | some peer =>
      let peerDate := TimeSync.localDateToRemote peer.timeOffset t
      let date := peer.peerDateToServer peerDate
      (s, TimeSyncCore.offsetDate date s.extraTimeOffset)
    | none =>
      let s' := { s with activePeerId := "server" }
      let inner := TimeSyncCore.localDateToRemote s' t
      (inner.1, TimeSyncCore.offsetDate inner.2 s.extraTimeOffset)
termination_by (if s.activePeerId = "server" then 0 else 1)
decreasing_by simp_all

/-! ## Playback core (syncPlayPlaybackCore, richer version) -/

/-- Embeds `TicksPerMillisecond` from syncPlayHelper. -/
def TicksPerMillisecond : Rat := 10000

/-- The four recognised playback command kinds (`command.Command` strings). -/
inductive CommandKind
  | unpauseCmd
  | pauseCmd
  | stopCmd
  | seekCmd
  deriving DecidableEq, Repr

/-- A playback command received from the server, already parsed by
`SyncPlayManager.processCommand` (`When`/`EmittedAt` as instants,
`PositionTicks` as `parseInt` result or `null`). -/
structure PlaybackCommand where
  When : Int
  PositionTicks : Option Int
  Command : CommandKind
  PlaylistItemId : String
  EmittedAt : Int
  deriving DecidableEq, Repr

/-- The pending callback of the single scheduled-command timer
(`scheduledCommandTimeout`), with its delay in milliseconds. -/
inductive ScheduledAction
  | unpauseAt (delayMs : Int) (positionTicks : Option Int)
  | pauseAt (delayMs : Int) (positionTicks : Option Int)
  | stopAt (delayMs : Int)
  | seekAt (delayMs : Int) (positionTicks : Option Rat)
  deriving DecidableEq, Repr

/-- The pending callback of the sync timer (`syncTimeout`), with its delay:
either just re-enable sync, or restore rate 1.0 and re-enable sync. -/
inductive SyncAction
  | enableSync (delayMs : Rat)
  | restoreRateAndEnableSync (delayMs : Rat)
  deriving DecidableEq, Repr

/-- User settings read by the playback core (`loadPreferences`), with the
documented defaults. -/
structure PlaybackSettings where
  minDelaySpeedToSync : Rat
  maxDelaySpeedToSync : Rat
  speedToSyncDuration : Rat
  minDelaySkipToSync : Rat
  useSpeedToSync : Bool
  useSkipToSync : Bool
  enableSyncCorrection : Bool
  deriving DecidableEq, Repr

/-- Mutable state of `SyncPlayPlaybackCore`. -/
structure PlaybackCore where
  syncEnabled : Bool
  playbackDiffMillis : Rat
  syncAttempts : Nat
  lastSyncTime : Int
  playerIsBuffering : Bool
  lastCommand : Option PlaybackCommand
  scheduledCommandTimeout : Option ScheduledAction
  syncTimeout : Option SyncAction
  settings : PlaybackSettings
  deriving DecidableEq, Repr

/-- What the playback core observes of the player wrapper. -/
structure PlayerView where
  isPlaybackActive : Bool
  isPlaying : Bool
  currentTimeMs : Rat
  hasPlaybackRate : Bool

/-- Ambient context of one synchronous run of the playback core: the
current local time, the time-sync conversions, the player observations,
whether the manager controls a remote player, and the `Math.random()`
draw used by the duplicate-seek branch. -/
structure PlaybackEnv where
  now : Int
  remoteToLocal : Int → Int
  localToRemote : Int → Int
  player : PlayerView
  isRemote : Bool
  rand : Rat

/-- Side effects the playback core can perform on the player, the server
and the UI. -/
inductive Effect
  | setPlaybackRate (rate : Rat)
  | clearSyncIcon
  | showSyncIcon
  | localUnpause
  | localPause
  | localStop
  | localSeek (positionTicks : Option Rat)
  | notifyOsdUnpause
  | sendBufferingRequest (isBuffering : Bool)
  | registerSeekOnUnpause (positionTicks : Rat)
  | registerSeekOnPause (positionTicks : Option Int)
  | registerReadyThenPauseReport (positionTicks : Option Rat)
  deriving DecidableEq, Repr

/-- Embeds `localUnpause`: forwarded to the player wrapper unless no player is
active. -/
def PlaybackCore.localUnpause (env : PlaybackEnv) : List Effect :=
  if env.player.isPlaybackActive then [Effect.localUnpause] else []

/-- Embeds `localPause`: forwarded to the player wrapper unless no player is
active. -/
def PlaybackCore.localPause (env : PlaybackEnv) : List Effect :=
  if env.player.isPlaybackActive then [Effect.localPause] else []

/-- Embeds `localSeek`: forwarded to the player wrapper unless no player is
active. -/
def PlaybackCore.localSeek (env : PlaybackEnv) (positionTicks : Option Rat) : List Effect :=
  if env.player.isPlaybackActive then [Effect.localSeek positionTicks] else []

/-- Embeds `localStop`: forwarded to the player wrapper unless no player is
active. -/
def PlaybackCore.localStop (env : PlaybackEnv) : List Effect :=
  if env.player.isPlaybackActive then [Effect.localStop] else []

/-- Embeds `estimateCurrentTicks`: `ticks + (localDateToRemote(currentTime) - when) * TicksPerMillisecond`. -/
def PlaybackCore.estimateCurrentTicks (env : PlaybackEnv) (ticks : Rat)
    (whenRemote : Int) (currentTime : Int) : Rat :=
  ticks + ((env.localToRemote currentTime - whenRemote : Int) : Rat) * TicksPerMillisecond

/-- Embeds `clearScheduledCommand`: clears both timers, disables sync, resets the
playback rate to 1.0 when supported and clears the sync icon. -/
def PlaybackCore.clearScheduledCommand (env : PlaybackEnv) (s : PlaybackCore) :
    PlaybackCore × List Effect :=
  ({ s with scheduledCommandTimeout := none, syncTimeout := none, syncEnabled := false },
   (if env.player.hasPlaybackRate then [Effect.setPlaybackRate 1] else [])
     ++ [Effect.clearSyncIcon])

/-- Embeds `scheduleUnpause`. -/
def PlaybackCore.scheduleUnpause (env : PlaybackEnv) (s : PlaybackCore)
    (playAtTime : Int) (positionTicks : Option Int) : PlaybackCore × List Effect :=
  let cleared := PlaybackCore.clearScheduledCommand env s
  let enableSyncTimeout := s.settings.maxDelaySpeedToSync / 2
  let playAtTimeLocal := env.remoteToLocal playAtTime
  let currentPositionTicks : Rat := env.player.currentTimeMs * TicksPerMillisecond
  if playAtTimeLocal > env.now then
    let playTimeout := playAtTimeLocal - env.now
    -- `currentPositionTicks - positionTicks` coerces a null `positionTicks` to 0.
    let seekEffs :=
      if currentPositionTicks - ((positionTicks.getD 0 : Int) : Rat)
          > s.settings.minDelaySkipToSync * TicksPerMillisecond then
        PlaybackCore.localSeek env (positionTicks.map fun p => (p : Rat))
      else []
    ({ cleared.1 with
        scheduledCommandTimeout := some (ScheduledAction.unpauseAt playTimeout positionTicks) },
     cleared.2 ++ seekEffs)
  else
    let serverPositionTicks :=
      PlaybackCore.estimateCurrentTicks env ((positionTicks.getD 0 : Int) : Rat) playAtTime env.now
    ({ cleared.1 with syncTimeout := some (SyncAction.enableSync enableSyncTimeout) },
     cleared.2 ++ [Effect.registerSeekOnUnpause serverPositionTicks]
       ++ PlaybackCore.localUnpause env ++ [Effect.notifyOsdUnpause])

/-- Embeds `schedulePause`. -/
def PlaybackCore.schedulePause (env : PlaybackEnv) (s : PlaybackCore)
    (pauseAtTime : Int) (positionTicks : Option Int) : PlaybackCore × List Effect :=
  let cleared := PlaybackCore.clearScheduledCommand env s
  let pauseAtTimeLocal := env.remoteToLocal pauseAtTime
  let callbackEffs :=
    [Effect.registerSeekOnPause positionTicks] ++ PlaybackCore.localPause env
  if pauseAtTimeLocal > env.now then
    let pauseTimeout := pauseAtTimeLocal - env.now
    ({ cleared.1 with
        scheduledCommandTimeout := some (ScheduledAction.pauseAt pauseTimeout positionTicks) },
     cleared.2)
  else
    (cleared.1, cleared.2 ++ callbackEffs)

/-- Embeds `scheduleStop`. -/
def PlaybackCore.scheduleStop (env : PlaybackEnv) (s : PlaybackCore)
    (stopAtTime : Int) : PlaybackCore × List Effect :=
  let cleared := PlaybackCore.clearScheduledCommand env s
  let stopAtTimeLocal := env.remoteToLocal stopAtTime
  if stopAtTimeLocal > env.now then
    let stopTimeout := stopAtTimeLocal - env.now
    ({ cleared.1 with
        scheduledCommandTimeout := some (ScheduledAction.stopAt stopTimeout) },
     cleared.2)
  else
    (cleared.1, cleared.2 ++ PlaybackCore.localStop env)

/-- Embeds `scheduleSeek`. -/
def PlaybackCore.scheduleSeek (env : PlaybackEnv) (s : PlaybackCore)
    (seekAtTime : Int) (positionTicks : Option Rat) : PlaybackCore × List Effect :=
  let cleared := PlaybackCore.clearScheduledCommand env s
  let seekAtTimeLocal := env.remoteToLocal seekAtTime
  let callbackEffs :=
    PlaybackCore.localUnpause env ++ PlaybackCore.localSeek env positionTicks
      ++ [Effect.registerReadyThenPauseReport positionTicks]
  if seekAtTimeLocal > env.now then
    let seekTimeout := seekAtTimeLocal - env.now
    ({ cleared.1 with
        scheduledCommandTimeout := some (ScheduledAction.seekAt seekTimeout positionTicks) },
     cleared.2)
  else
    (cleared.1, cleared.2 ++ callbackEffs)

/-- The duplicate-command test of `applyCommand`: all of `When`,
`PositionTicks`, `Command` and `PlaylistItemId` coincide (`EmittedAt` is
not compared). -/
def sameCommand (a b : PlaybackCommand) : Bool :=
  a.When = b.When ∧ a.PositionTicks = b.PositionTicks
    ∧ a.Command = b.Command ∧ a.PlaylistItemId = b.PlaylistItemId

/-- The random forced-seek offset of the duplicate-seek branch, in
milliseconds: `Math.round((Math.random() - 0.5) * rangeWidth)` with
`rangeWidth = 100` (Mathlib `round x = ⌊x + 1/2⌋` matches `Math.round`,
ties toward positive infinity). -/
def randomOffsetMillis (rand : Rat) : Int :=
  round ((rand - 1/2) * 100)

/-- The non-duplicate tail of `applyCommand`: store the command as
`lastCommand`, skip scheduling when the remote player has its own local
SyncPlay manager, otherwise dispatch on the command kind. -/
def PlaybackCore.applyNewCommand (env : PlaybackEnv) (s : PlaybackCore)
    (command : PlaybackCommand) : PlaybackCore × List Effect :=
  let s1 := { s with lastCommand := some command }
  if env.isRemote then (s1, [])
  else
    match command.Command with
    | CommandKind.unpauseCmd =>
      PlaybackCore.scheduleUnpause env s1 command.When command.PositionTicks
    | CommandKind.pauseCmd =>
      PlaybackCore.schedulePause env s1 command.When command.PositionTicks
    | CommandKind.stopCmd => PlaybackCore.scheduleStop env s1 command.When
    | CommandKind.seekCmd =>
      PlaybackCore.scheduleSeek env s1 command.When
        (command.PositionTicks.map fun p => (p : Rat))

/-- Embeds `applyCommand`. -/
def PlaybackCore.applyCommand (env : PlaybackEnv) (s : PlaybackCore)
    (command : PlaybackCommand) : PlaybackCore × List Effect :=
  match s.lastCommand with
  | some lastCommand =>
    if sameCommand lastCommand command then
      -- Duplicate command: determine if past command or future one.
      let whenLocal := env.remoteToLocal command.When
      if whenLocal > env.now then
        -- Command should be already scheduled, not much we can do.
        (s, [])
      else
        let currentPositionTicks : Int :=
          round (env.player.currentTimeMs * TicksPerMillisecond)
        let isPlaying := env.player.isPlaying
        match command.Command with
        | CommandKind.unpauseCmd =>
          if !isPlaying then
            PlaybackCore.scheduleUnpause env s command.When command.PositionTicks
          else (s, [])
        | CommandKind.pauseCmd =>
          if isPlaying || some currentPositionTicks ≠ command.PositionTicks then
            PlaybackCore.schedulePause env s command.When command.PositionTicks
          else (s, [])
        | CommandKind.stopCmd =>
          if isPlaying then PlaybackCore.scheduleStop env s command.When
          else (s, [])
        | CommandKind.seekCmd =>
          if isPlaying || some currentPositionTicks ≠ command.PositionTicks then
            let randomOffsetTicks : Rat :=
              ((randomOffsetMillis env.rand : Int) : Rat) * TicksPerMillisecond
            -- `command.PositionTicks + randomOffsetTicks` coerces null to 0.
            PlaybackCore.scheduleSeek env s command.When
              (some (((command.PositionTicks.getD 0 : Int) : Rat) + randomOffsetTicks))
          else
            (s, [Effect.sendBufferingRequest false])
    else
      PlaybackCore.applyNewCommand env s command
  | none =>
    PlaybackCore.applyNewCommand env s command

/-- The adjusted `speedToSyncTime` of the SpeedToSync branch: when
`diffMillis <= -speedToSyncTime * MinSpeed` (MinSpeed = 0.2), replace it
with `Math.abs(diffMillis) / (1.0 - MinSpeed)`. -/
def adjustedSpeedToSyncTime (diffMillis speedToSyncTime : Rat) : Rat :=
  let MinSpeed : Rat := 2/10
  if diffMillis ≤ -speedToSyncTime * MinSpeed then |diffMillis| / (1 - MinSpeed)
  else speedToSyncTime

/-- The playback rate computed by the SpeedToSync branch:
`speed = 1 + diffMillis / speedToSyncTime` after the adjustment above. -/
def speedToSyncValue (diffMillis speedToSyncTime : Rat) : Rat :=
  1 + diffMillis / adjustedSpeedToSyncTime diffMillis speedToSyncTime

/-- The payload of a player time update (`timeUpdateData`): the current
local time as a date and the current position in milliseconds. -/
structure TimeUpdateData where
  currentTime : Int
  currentPosition : Rat

/-- Embeds `syncPlaybackTime`: the drift corrector run on each player time
update. -/
def PlaybackCore.syncPlaybackTime (env : PlaybackEnv) (s : PlaybackCore)
    (timeUpdateData : TimeUpdateData) : PlaybackCore × List Effect :=
  let syncMethodThreshold := s.settings.maxDelaySpeedToSync
  -- Ignore sync when no player is active.
  if !env.player.isPlaybackActive then (s, [])
  else
    -- Attempt to sync only when media is playing.
    match s.lastCommand with
    | none => (s, [])
    | some lastCommand =>
      if lastCommand.Command ≠ CommandKind.unpauseCmd || s.playerIsBuffering then (s, [])
      else
        let currentPositionTicks : Rat :=
          timeUpdateData.currentPosition * TicksPerMillisecond
        let serverPositionTicks : Rat :=
          PlaybackCore.estimateCurrentTicks env
            ((lastCommand.PositionTicks.getD 0 : Int) : Rat) lastCommand.When
            timeUpdateData.currentTime
        let diffMillis := (serverPositionTicks - currentPositionTicks) / TicksPerMillisecond
        let s1 := { s with playbackDiffMillis := diffMillis }
        -- Avoid overloading the browser.
        let elapsed := timeUpdateData.currentTime - s.lastSyncTime
        if ((elapsed : Int) : Rat) < syncMethodThreshold / 2 then (s1, [])
        else
          let s2 := { s1 with lastSyncTime := timeUpdateData.currentTime }
          if s.syncEnabled && s.settings.enableSyncCorrection then
            let absDiffMillis := |diffMillis|
            if env.player.hasPlaybackRate && s.settings.useSpeedToSync
                && decide (s.settings.minDelaySpeedToSync ≤ absDiffMillis)
                && decide (absDiffMillis < s.settings.maxDelaySpeedToSync) then
              -- SpeedToSync strategy.
              let speedToSyncTime :=
                adjustedSpeedToSyncTime diffMillis s.settings.speedToSyncDuration
              let speed := speedToSyncValue diffMillis s.settings.speedToSyncDuration
              ({ s2 with
                  syncEnabled := false
                  syncAttempts := s2.syncAttempts + 1
                  syncTimeout := some (SyncAction.restoreRateAndEnableSync speedToSyncTime) },
               [Effect.setPlaybackRate speed, Effect.showSyncIcon])
            else if s.settings.useSkipToSync
                && decide (s.settings.minDelaySkipToSync ≤ absDiffMillis) then
              -- SkipToSync strategy.
              ({ s2 with
                  syncEnabled := false
                  syncAttempts := s2.syncAttempts + 1
                  syncTimeout := some (SyncAction.enableSync (syncMethodThreshold / 2)) },
               PlaybackCore.localSeek env (some serverPositionTicks) ++ [Effect.showSyncIcon])
            else
              -- Playback is synced.
              ({ s2 with syncAttempts := 0 }, [])
          else (s2, [])

/-! ## Queue mirroring (syncPlayQueueManager, syncPlayQueueCore) -/

/-- One entry of a server play-queue update's `Playlist`. -/
structure QueueItem where
  ItemId : String
  PlaylistItemId : String
  deriving DecidableEq, Repr

/-- A resolved playlist item: the item fetched from the library with the
server-provided `PlaylistItemId` assigned onto it. -/
structure ResolvedItem where
  itemId : String
  PlaylistItemId : String
  deriving DecidableEq, Repr

/-- The `Reason` field of a server play-queue update. -/
inductive UpdateReason
  | newPlaylist
  | setCurrentItem
  | nextTrack
  | previousTrack
  | removeItems
  | moveItem
  | queueItems
  | queueNextItems
  | repeatModeChange
  | shuffleModeChange
  deriving DecidableEq, Repr

/-- A server play-queue update (`newPlayQueue`), with `LastUpdate` already
parsed to an instant. -/
structure PlayQueueUpdate where
  LastUpdate : Int
  Playlist : List QueueItem
  PlayingItemIndex : Int
  StartPositionTicks : Int
  ShuffleMode : String
  RepeatMode : String
  Reason : UpdateReason
  deriving DecidableEq, Repr

/-- Mutable state of `SyncPlayQueueManager`. -/
structure SyncPlayQueueManager where
  internalPlaylist : List QueueItem
  reason : Option UpdateReason
  playlist : List ResolvedItem
  shuffleMode : String
  repeatMode : String
  lastUpdate : Option Int
  playingItemIndex : Int
  startPositionTicks : Int
  realPlaylistItemId : Option String
  realPlaylistIndex : Int
  deriving DecidableEq, Repr

/-- Embeds `SyncPlayQueueManager.getLastUpdateTime`: the stored instant, or 0 when
none. -/
def SyncPlayQueueManager.getLastUpdateTime (s : SyncPlayQueueManager) : Int :=
  match s.lastUpdate with
  | some lastUpdate => lastUpdate
  | none => 0

/-- Embeds `SyncPlayQueueManager.getCurrentPlaylistItemId`: `null` when
`playingItemIndex` is -1, else the playlist item id at that index. -/
def SyncPlayQueueManager.getCurrentPlaylistItemId (s : SyncPlayQueueManager) :
    Option String :=
  if s.playingItemIndex = -1 then none
  else (s.playlist.get? s.playingItemIndex.toNat).map (·.PlaylistItemId)

/-- Embeds `SyncPlayQueueManager.onPlayQueueUpdate`: stores a fresh update after
resolving its items; an update not newer than the stored one is rejected
(the promise rejects with "Trying to apply old update", modelled as
`none`).  Item resolution through the library
(`getItemsForPlayback`/`translateItemsForPlayback`) is abstracted by
`resolveItems`; each resolved item is associated with its server-provided
`PlaylistItemId` positionally. -/
def SyncPlayQueueManager.onPlayQueueUpdate (resolveItems : List String → List String)
    (s : SyncPlayQueueManager) (playQueueUpdate : PlayQueueUpdate) :
    Option SyncPlayQueueManager :=
  let itemIds := playQueueUpdate.Playlist.map (·.ItemId)
  let stale : Bool :=
    match s.lastUpdate with
    | some lastUpdate => playQueueUpdate.LastUpdate ≤ lastUpdate
    | none => false
  if itemIds.isEmpty then
    if stale then none
    else
      some { s with
        playlist := []
        reason := some playQueueUpdate.Reason
        lastUpdate := some playQueueUpdate.LastUpdate
        internalPlaylist := playQueueUpdate.Playlist
        playingItemIndex := playQueueUpdate.PlayingItemIndex
        startPositionTicks := playQueueUpdate.StartPositionTicks
        shuffleMode := playQueueUpdate.ShuffleMode
        repeatMode := playQueueUpdate.RepeatMode }
  else
    -- After the asynchronous item resolution:
    if stale then none
    else
      let items := (resolveItems itemIds).zipWith
        (fun itemId queueItem => ResolvedItem.mk itemId queueItem.PlaylistItemId)
        playQueueUpdate.Playlist
      some { s with
        playlist := items
        reason := some playQueueUpdate.Reason
        lastUpdate := some playQueueUpdate.LastUpdate
        internalPlaylist := playQueueUpdate.Playlist
        playingItemIndex := playQueueUpdate.PlayingItemIndex
        startPositionTicks := playQueueUpdate.StartPositionTicks
        shuffleMode := playQueueUpdate.ShuffleMode
        repeatMode := playQueueUpdate.RepeatMode }

/-- Side effects of applying a queue update's reason branch. -/
inductive QueueEffect
  | followGroupPlayback
  | startPlayback
  | localSetCurrentPlaylistItem (playlistItemId : Option String)
  | playlistItemAdd
  | localSetRepeatMode (mode : String)
  | localSetQueueShuffleMode (mode : String)
  deriving DecidableEq, Repr

/-- Ambient context of the queue core: whether this client follows group
playback and whether a current player exists. -/
structure QueueEnv where
  isFollowingGroupPlayback : Bool
  hasCurrentPlayer : Bool
  resolveItems : List String → List String

/-- The `switch (newPlayQueue.Reason)` dispatch of
`SyncPlayQueueCore.updatePlayQueue`, producing the reason-branch side
effects from the freshly updated queue manager state. -/
def SyncPlayQueueCore.reasonEffects (env : QueueEnv) (s : SyncPlayQueueManager)
    (reason : UpdateReason) : List QueueEffect :=
  match reason with
  | UpdateReason.newPlaylist =>
    if !env.isFollowingGroupPlayback then
      [QueueEffect.followGroupPlayback, QueueEffect.startPlayback]
    else [QueueEffect.startPlayback]
  | UpdateReason.setCurrentItem | UpdateReason.nextTrack | UpdateReason.previousTrack =>
    [QueueEffect.localSetCurrentPlaylistItem s.getCurrentPlaylistItemId]
  | UpdateReason.removeItems =>
    (if env.hasCurrentPlayer then [QueueEffect.playlistItemAdd] else [])
      ++ (if s.realPlaylistItemId ≠ s.getCurrentPlaylistItemId then
            [QueueEffect.localSetCurrentPlaylistItem s.getCurrentPlaylistItemId]
          else [])
  | UpdateReason.moveItem | UpdateReason.queueItems | UpdateReason.queueNextItems =>
    if env.hasCurrentPlayer then [QueueEffect.playlistItemAdd] else []
  | UpdateReason.repeatModeChange =>
    [QueueEffect.localSetRepeatMode s.repeatMode]
  | UpdateReason.shuffleModeChange =>
    [QueueEffect.localSetQueueShuffleMode s.shuffleMode]

/-- The continuation of `SyncPlayQueueCore.updatePlayQueue` that runs after
`onPlayQueueUpdate` resolves, against the queue manager state observed at
that later time: it re-validates freshness (an interleaved newer update
throws "Trying to apply old update", which the surrounding catch turns
into no side effects) and otherwise dispatches on the reason. -/
def SyncPlayQueueCore.updatePlayQueueResolved (env : QueueEnv)
    (s : SyncPlayQueueManager) (newPlayQueue : PlayQueueUpdate) :
    SyncPlayQueueManager × List QueueEffect :=
  if newPlayQueue.LastUpdate < s.getLastUpdateTime then (s, [])
  else (s, SyncPlayQueueCore.reasonEffects env s newPlayQueue.Reason)

/-- Embeds `SyncPlayQueueCore.updatePlayQueue`, run without interleaved updates:
reject an update not newer than the stored one, otherwise apply it through
`onPlayQueueUpdate` (a rejection there is caught and produces no effects)
and run the post-resolution continuation. -/
def SyncPlayQueueCore.updatePlayQueue (env : QueueEnv)
    (s : SyncPlayQueueManager) (newPlayQueue : PlayQueueUpdate) :
    SyncPlayQueueManager × List QueueEffect :=
  if newPlayQueue.LastUpdate ≤ s.getLastUpdateTime then (s, [])
  else
    match SyncPlayQueueManager.onPlayQueueUpdate env.resolveItems s newPlayQueue with
    | none => (s, [])
    | some s' => SyncPlayQueueCore.updatePlayQueueResolved env s' newPlayQueue

/-! ## Session manager (syncPlayManager) -/

/-- Mutable state of `SyncPlayManager` relevant to command processing and
session disabling. -/
structure SyncPlayManager where
  syncPlayEnabledAt : Option Int
  syncPlayReady : Bool
  queuedCommand : Option PlaybackCommand
  followingGroupPlayback : Bool
  lastPlaybackCommand : Option PlaybackCommand
  playbackCore : PlaybackCore
  deriving DecidableEq, Repr

/-- Ambient context of the manager: the playback context plus the queue
core's current playlist item id. -/
structure ManagerEnv where
  playback : PlaybackEnv
  currentPlaylistItemId : Option String

/-- Embeds `SyncPlayManager.getLastPlaybackCommand`. -/
def SyncPlayManager.getLastPlaybackCommand (s : SyncPlayManager) :
    Option PlaybackCommand :=
  s.lastPlaybackCommand

/-- Embeds `SyncPlayManager.isSyncPlayEnabled`: `syncPlayEnabledAt !== null`. -/
def SyncPlayManager.isSyncPlayEnabled (s : SyncPlayManager) : Bool :=
  s.syncPlayEnabledAt.isSome

/-- Embeds `SyncPlayManager.processCommand` (the command may be `null`, e.g. when
flushing an empty queued command). -/
def SyncPlayManager.processCommand (env : ManagerEnv) (s : SyncPlayManager)
    (cmd : Option PlaybackCommand) : SyncPlayManager × List Effect :=
  match cmd with
  | none => (s, [])
  | some cmd =>
    match s.syncPlayEnabledAt with
    | none => (s, [])
    | some syncPlayEnabledAt =>
      if cmd.EmittedAt < syncPlayEnabledAt then (s, [])
      else if !s.syncPlayReady then
        ({ s with queuedCommand := some cmd }, [])
      else
        let s1 := { s with lastPlaybackCommand := some cmd }
        if !env.playback.player.isPlaybackActive then (s1, [])
        else if some cmd.PlaylistItemId ≠ env.currentPlaylistItemId then (s1, [])
        else
          let applied := PlaybackCore.applyCommand env.playback s1.playbackCore cmd
          ({ s1 with playbackCore := applied.1 }, applied.2)

/-- Side effects of enabling/disabling the session. -/
inductive ManagerEffect
  | enabledEvent (enabled : Bool)
  | restorePlaybackManagerCall
  | webRTCDisable
  | toastDisabled
  deriving DecidableEq, Repr

/-- Embeds `SyncPlayManager.disableSyncPlay`. -/
def SyncPlayManager.disableSyncPlay (s : SyncPlayManager) (showMessage : Bool) :
    SyncPlayManager × List ManagerEffect :=
  ({ s with
      syncPlayEnabledAt := none
      syncPlayReady := false
      followingGroupPlayback := true
      lastPlaybackCommand := none
      queuedCommand := none
      playbackCore := { s.playbackCore with syncEnabled := false } },
   [ManagerEffect.enabledEvent false, ManagerEffect.restorePlaybackManagerCall,
      ManagerEffect.webRTCDisable]
     ++ (if showMessage then [ManagerEffect.toastDisabled] else []))

/-- Whether an effect is a playback-rate change or a seek on the local
player. -/
def Effect.isRateOrSeek : Effect → Bool
  | Effect.setPlaybackRate _ => true
  | Effect.localSeek _ => true
  | _ => false

/-! ## Concrete fixtures (used by witnesses and counterexamples) -/

/-- The documented default settings. -/
def settingsDefault : PlaybackSettings :=
  { minDelaySpeedToSync := 60
    maxDelaySpeedToSync := 3000
    speedToSyncDuration := 1000
    minDelaySkipToSync := 400
    useSpeedToSync := true
    useSkipToSync := true
    enableSyncCorrection := true }

/-- An idle paused player at 990 ms. -/
def playerIdle : PlayerView :=
  { isPlaybackActive := true, isPlaying := false, currentTimeMs := 990
    hasPlaybackRate := false }

/-- Local clock at 0, identity time sync (offset 0). -/
def envFuture : PlaybackEnv :=
  { now := 0, remoteToLocal := fun t => t, localToRemote := fun t => t
    player := playerIdle, isRemote := false, rand := 0 }

/-- A fresh playback core with no command and no timers. -/
def coreIdle : PlaybackCore :=
  { syncEnabled := false, playbackDiffMillis := 0, syncAttempts := 0
    lastSyncTime := 0, playerIsBuffering := false, lastCommand := none
    scheduledCommandTimeout := none, syncTimeout := none
    settings := settingsDefault }

/-- Scenario S2: an Unpause at server time 2000 for position 10,000,000
ticks on playlist item "A". -/
def cmdUnpauseFuture : PlaybackCommand :=
  { When := 2000, PositionTicks := some 10000000
    Command := CommandKind.unpauseCmd, PlaylistItemId := "A", EmittedAt := 100 }

/-- Scenario S4 variant: a playing player at 5000 ms. -/
def playerSeekDup : PlayerView :=
  { isPlaybackActive := true, isPlaying := true, currentTimeMs := 5000
    hasPlaybackRate := false }

/-- Local clock at 1200, identity time sync, `Math.random()` drew 0.5. -/
def envSeekDup : PlaybackEnv :=
  { now := 1200, remoteToLocal := fun t => t, localToRemote := fun t => t
    player := playerSeekDup, isRemote := false, rand := 1/2 }

/-- A Seek at server time 1000 to 50,000,000 ticks on playlist item "B". -/
def cmdSeekDup : PlaybackCommand :=
  { When := 1000, PositionTicks := some 50000000
    Command := CommandKind.seekCmd, PlaylistItemId := "B", EmittedAt := 900 }

/-- A core whose last scheduled command is `cmdSeekDup`. -/
def coreSeekDup : PlaybackCore := { coreIdle with lastCommand := some cmdSeekDup }

/-- A peer time-sync source: 30 ms offset to the peer, the peer reports a
-45 ms offset to the server. -/
def peerX : TimeSyncPeer :=
  { timeOffset := 30, ping := 20, peerTimeOffset := -45, peerPing := 10 }

/-- A time-sync registry whose active device is the live peer `peer-1`,
with a 7 ms user extra offset. -/
def registryPeerActive : TimeSyncCore :=
  { serverTimeOffset := 120, serverPing := 80, peers := [("peer-1", peerX)]
    activePeerId := "peer-1", extraTimeOffset := 7 }

/-- A queue context that follows group playback with a current player and
an identity item resolver. -/
def queueEnvW : QueueEnv :=
  { isFollowingGroupPlayback := true, hasCurrentPlayer := true
    resolveItems := fun ids => ids }

/-- Scenario S6: a queue last updated at instant 1500. -/
def queueMgrW : SyncPlayQueueManager :=
  { internalPlaylist := [{ ItemId := "item-1", PlaylistItemId := "pl-1" }]
    reason := some UpdateReason.newPlaylist
    playlist := [{ itemId := "item-1", PlaylistItemId := "pl-1" }]
    shuffleMode := "Sorted", repeatMode := "RepeatNone"
    lastUpdate := some 1500, playingItemIndex := 0, startPositionTicks := 0
    realPlaylistItemId := some "pl-1", realPlaylistIndex := 0 }

/-- Scenario S6: an incoming update stamped 1200 (older than 1500). -/
def staleUpdate : PlayQueueUpdate :=
  { LastUpdate := 1200
    Playlist := [{ ItemId := "item-2", PlaylistItemId := "pl-2" }]
    PlayingItemIndex := 0, StartPositionTicks := 0
    ShuffleMode := "Sorted", RepeatMode := "RepeatNone"
    Reason := UpdateReason.setCurrentItem }

/-- An update stamped 1400, overtaken by a newer one (1500) during its
item resolution. -/
def overtakenUpdate : PlayQueueUpdate := { staleUpdate with LastUpdate := 1400 }

/-- An enabled and ready session manager with a fresh playback core. -/
def mgrReady : SyncPlayManager :=
  { syncPlayEnabledAt := some 50, syncPlayReady := true, queuedCommand := none
    followingGroupPlayback := true, lastPlaybackCommand := none
    playbackCore := coreIdle }

/-- A manager context whose queue is currently playing playlist item "Z". -/
def mgrEnvMismatch : ManagerEnv :=
  { playback := envFuture, currentPlaylistItemId := some "Z" }

/-- A manager with a pending scheduled stop and a pending sync timer. -/
def mgrArmed : SyncPlayManager :=
  { mgrReady with
      playbackCore :=
        { coreIdle with
            scheduledCommandTimeout := some (ScheduledAction.stopAt 5000)
            syncTimeout := some (SyncAction.enableSync 1500) } }

/-- A core with `syncEnabled = false` whose last command is an Unpause. -/
def coreSyncOff : PlaybackCore := { coreIdle with lastCommand := some cmdUnpauseFuture }

/-- A player time update: local time 5000, position 1234 ms. -/
def tuData : TimeUpdateData := { currentTime := 5000, currentPosition := 1234 }

/-- Scenario S1: the ping sample (1000, 1050, 1060, 1120). -/
def pingS1 : PingSample :=
  { requestSent := 1000, requestReceived := 1050
    responseSent := 1060, responseReceived := 1120 }

/-! ## Helper lemmas -/

theorem sameCommand_self (c : PlaybackCommand) : sameCommand c c = true := by
  simp [sameCommand]

theorem scheduleUnpause_lastCommand (env : PlaybackEnv) (s : PlaybackCore)
    (playAtTime : Int) (positionTicks : Option Int) :
    ((PlaybackCore.scheduleUnpause env s playAtTime positionTicks).1).lastCommand
      = s.lastCommand := by
  unfold PlaybackCore.scheduleUnpause PlaybackCore.clearScheduledCommand
  by_cases h : env.remoteToLocal playAtTime > env.now <;> simp [h]

theorem schedulePause_lastCommand (env : PlaybackEnv) (s : PlaybackCore)
    (pauseAtTime : Int) (positionTicks : Option Int) :
    ((PlaybackCore.schedulePause env s pauseAtTime positionTicks).1).lastCommand
      = s.lastCommand := by
  unfold PlaybackCore.schedulePause PlaybackCore.clearScheduledCommand
  by_cases h : env.remoteToLocal pauseAtTime > env.now <;> simp [h]

theorem scheduleStop_lastCommand (env : PlaybackEnv) (s : PlaybackCore)
    (stopAtTime : Int) :
    ((PlaybackCore.scheduleStop env s stopAtTime).1).lastCommand = s.lastCommand := by
  unfold PlaybackCore.scheduleStop PlaybackCore.clearScheduledCommand
  by_cases h : env.remoteToLocal stopAtTime > env.now <;> simp [h]

theorem scheduleSeek_lastCommand (env : PlaybackEnv) (s : PlaybackCore)
    (seekAtTime : Int) (positionTicks : Option Rat) :
    ((PlaybackCore.scheduleSeek env s seekAtTime positionTicks).1).lastCommand
      = s.lastCommand := by
  unfold PlaybackCore.scheduleSeek PlaybackCore.clearScheduledCommand
  by_cases h : env.remoteToLocal seekAtTime > env.now <;> simp [h]

theorem applyNewCommand_lastCommand (env : PlaybackEnv) (s : PlaybackCore)
    (c : PlaybackCommand) :
    ((PlaybackCore.applyNewCommand env s c).1).lastCommand = some c := by
  unfold PlaybackCore.applyNewCommand
  by_cases h : env.isRemote
  · simp [h]
  · cases hk : c.Command <;>
      simp [h, hk, scheduleUnpause_lastCommand, schedulePause_lastCommand,
        scheduleStop_lastCommand, scheduleSeek_lastCommand]

/-! ## Claim theorems -/

/-- Claim C8: for every ping sample with well-ordered timestamps, the
derived round-trip time is nonnegative and the derived offset is bounded
in absolute value by the client-side round-trip interval
`responseReceived - requestSent`. -/
theorem pingSample_rtt_nonneg_offset_bounded (p : PingSample)
    (h : p.WellOrdered) :
    0 ≤ p.rtt
      ∧ |p.offset| ≤ ((p.responseReceived - p.requestSent : Int) : Rat) := by
  obtain ⟨h1, h2, h3⟩ := h
  have c1 : ((p.requestSent : Int) : Rat) ≤ ((p.requestReceived : Int) : Rat) := by
    exact_mod_cast h1
  have c2 : ((p.requestReceived : Int) : Rat) ≤ ((p.responseSent : Int) : Rat) := by
    exact_mod_cast h2
  have c3 : ((p.responseSent : Int) : Rat) ≤ ((p.responseReceived : Int) : Rat) := by
    exact_mod_cast h3
  constructor
  · unfold PingSample.rtt
    omega
  · unfold PingSample.offset
    rw [abs_le]
    push_cast
    constructor <;> linarith

/-- Witness for C8 at scenario S1. -/
theorem pingSample_rtt_nonneg_offset_bounded_witness :
    0 ≤ pingS1.rtt
      ∧ |pingS1.offset|
        ≤ ((pingS1.responseReceived - pingS1.requestSent : Int) : Rat) :=
  pingSample_rtt_nonneg_offset_bounded pingS1 (by decide)

/-- Claim C2: for every instant and every registry state whose active
source is the server or a live peer, converting local time to remote time
and back yields the original instant (with the peer-transitive offsets and
the extra user offset cancelling exactly). -/
theorem timeSyncCore_remote_local_roundTrip (s : TimeSyncCore) (t : Int)
    (h : s.activePeerId = "server" ∨ (s.getPeerById s.activePeerId).isSome) :
    (TimeSyncCore.remoteDateToLocal (TimeSyncCore.localDateToRemote s t).1
        (TimeSyncCore.localDateToRemote s t).2).2 = t := by
  by_cases hs : s.activePeerId = "server"
  · unfold TimeSyncCore.localDateToRemote TimeSyncCore.remoteDateToLocal
    simp only [hs, if_true, TimeSync.localDateToRemote, TimeSync.remoteDateToLocal,
      TimeSyncCore.offsetDate]
    omega
  · have hp : (s.getPeerById s.activePeerId).isSome := h.resolve_left hs
    obtain ⟨peer, hpeer⟩ := Option.isSome_iff_exists.mp hp
    unfold TimeSyncCore.localDateToRemote TimeSyncCore.remoteDateToLocal
    simp only [hs, if_false, hpeer, TimeSync.localDateToRemote,
      TimeSync.remoteDateToLocal, TimeSyncPeer.peerDateToServer,
      TimeSyncPeer.serverDateToPeer, TimeSyncCore.offsetDate]
    omega

/-- Witness for C2: a registry whose active device is the live peer
`peer-1`, converting instant 123456. -/
theorem timeSyncCore_remote_local_roundTrip_witness :
    (TimeSyncCore.remoteDateToLocal
        (TimeSyncCore.localDateToRemote registryPeerActive 123456).1
        (TimeSyncCore.localDateToRemote registryPeerActive 123456).2).2 = 123456 :=
  timeSyncCore_remote_local_roundTrip registryPeerActive 123456
    (Or.inr (by decide))

/-- Claim C5: for every drift in the SpeedToSync window, the rate computed
as `1 + delta/T` (with `T` replaced by `|delta|/(1 - MinSpeed)` whenever
`delta <= -T * MinSpeed`, MinSpeed = 0.2) is strictly positive as long as
the configured `speedToSyncDuration` is positive, so the `speed > 0`
assertion never fails. -/
theorem speedToSyncValue_pos (settings : PlaybackSettings) (diffMillis : Rat)
    (hT : 0 < settings.speedToSyncDuration)
    (hlo : settings.minDelaySpeedToSync ≤ |diffMillis|)
    (hhi : |diffMillis| < settings.maxDelaySpeedToSync) :
    0 < speedToSyncValue diffMillis settings.speedToSyncDuration := by
  unfold speedToSyncValue adjustedSpeedToSyncTime
  by_cases h : diffMillis ≤ -settings.speedToSyncDuration * (2/10)
  · rw [if_pos h]
    have hneg : diffMillis < 0 := by nlinarith
    have habs : |diffMillis| = -diffMillis := abs_of_neg hneg
    rw [habs]
    have hne : diffMillis ≠ 0 := ne_of_lt hneg
    have key : diffMillis / (-diffMillis / (1 - 2/10)) = -(4/5) := by
      field_simp
      ring
    rw [key]
    norm_num
  · rw [if_neg h]
    push_neg at h
    have : -(2/10) < diffMillis / settings.speedToSyncDuration := by
      rw [lt_div_iff₀ hT]
      nlinarith
    linarith

/-- Witness for C5 at scenario S5: default settings, drift +200 ms. -/
theorem speedToSyncValue_pos_witness :
    0 < speedToSyncValue 200 settingsDefault.speedToSyncDuration :=
  speedToSyncValue_pos settingsDefault 200 (by norm_num [settingsDefault])
    (by norm_num [settingsDefault]) (by norm_num [settingsDefault])

/-- Claim C7: a drift-corrector run (`syncPlaybackTime`) with
`syncEnabled = false` while the last command is an Unpause performs no
rate change and no seek on the player. -/
theorem syncPlaybackTime_noRateOrSeek_syncDisabled (env : PlaybackEnv)
    (s : PlaybackCore) (d : TimeUpdateData) (c : PlaybackCommand)
    (hsync : s.syncEnabled = false) (hc : s.lastCommand = some c)
    (hk : c.Command = CommandKind.unpauseCmd) :
    ((PlaybackCore.syncPlaybackTime env s d).2).filter Effect.isRateOrSeek = [] := by
  have heff : (PlaybackCore.syncPlaybackTime env s d).2 = [] := by
    unfold PlaybackCore.syncPlaybackTime
    rw [hc]
    by_cases ha : env.player.isPlaybackActive
    · simp only [ha, Bool.not_true, Bool.false_eq_true, if_false]
      by_cases hb : s.playerIsBuffering
      · simp [hk, hb]
      · simp only [hk, hb]
        split
        · rfl
        · simp only [hsync]
          split
          · rfl
          · simp
    · simp [ha]
  rw [heff]
  rfl

/-- Witness for C7: a core with sync disabled and a pending Unpause
command. -/
theorem syncPlaybackTime_noRateOrSeek_syncDisabled_witness :
    ((PlaybackCore.syncPlaybackTime envFuture coreSyncOff tuData).2).filter
      Effect.isRateOrSeek = [] :=
  syncPlaybackTime_noRateOrSeek_syncDisabled envFuture coreSyncOff tuData
    cmdUnpauseFuture rfl rfl rfl

/-- Claim C6: a server queue update whose `LastUpdate` is not newer than
the stored last-update instant is rejected by `updatePlayQueue` and the
queue state is left completely unchanged, with no side effects. -/
theorem updatePlayQueue_rejects_stale (env : QueueEnv)
    (s : SyncPlayQueueManager) (u : PlayQueueUpdate)
    (h : u.LastUpdate ≤ s.getLastUpdateTime) :
    SyncPlayQueueCore.updatePlayQueue env s u = (s, []) := by
  unfold SyncPlayQueueCore.updatePlayQueue
  rw [if_pos h]

/-- Witness for C6 at scenario S6: stored instant 1500, update stamped
1200. -/
theorem updatePlayQueue_rejects_stale_witness :
    SyncPlayQueueCore.updatePlayQueue queueEnvW queueMgrW staleUpdate
      = (queueMgrW, []) :=
  updatePlayQueue_rejects_stale queueEnvW queueMgrW staleUpdate (by decide)

/-- Claim C10: the post-resolution continuation of `updatePlayQueue`
re-validates freshness: when the stored last-update instant has meanwhile
become greater than this update's `LastUpdate`, none of the reason-branch
side effects are executed. -/
theorem updatePlayQueueResolved_overtaken_noEffects (env : QueueEnv)
    (s : SyncPlayQueueManager) (u : PlayQueueUpdate)
    (h : u.LastUpdate < s.getLastUpdateTime) :
    SyncPlayQueueCore.updatePlayQueueResolved env s u = (s, []) := by
  unfold SyncPlayQueueCore.updatePlayQueueResolved
  rw [if_pos h]

/-- Witness for C10: an update stamped 1400 whose resolution finished
after a newer update (stored instant 1500) was applied. -/
theorem updatePlayQueueResolved_overtaken_noEffects_witness :
    SyncPlayQueueCore.updatePlayQueueResolved queueEnvW queueMgrW overtakenUpdate
      = (queueMgrW, []) :=
  updatePlayQueueResolved_overtaken_noEffects queueEnvW queueMgrW overtakenUpdate
    (by decide)

/-- Claim C9: `processCommand` stores an incoming command as
`lastPlaybackCommand` before checking for an active player and for a
matching playlist item, so a command dropped by either check still updates
`getLastPlaybackCommand` while the playback core (scheduler state and
timers) stays unchanged and no side effect is performed. -/
theorem processCommand_stores_droppedCommand (env : ManagerEnv)
    (s : SyncPlayManager) (cmd : PlaybackCommand) (enabledAt : Int)
    (hen : s.syncPlayEnabledAt = some enabledAt)
    (hem : ¬ cmd.EmittedAt < enabledAt)
    (hready : s.syncPlayReady = true)
    (hdrop : env.playback.player.isPlaybackActive = false
      ∨ some cmd.PlaylistItemId ≠ env.currentPlaylistItemId) :
    (SyncPlayManager.processCommand env s (some cmd)).1.getLastPlaybackCommand
        = some cmd
      ∧ (SyncPlayManager.processCommand env s (some cmd)).1.playbackCore
        = s.playbackCore
      ∧ (SyncPlayManager.processCommand env s (some cmd)).2 = [] := by
  unfold SyncPlayManager.processCommand
  rw [hen]
  simp only [hem, if_false, hready, Bool.not_true, Bool.false_eq_true, if_false]
  rcases hdrop with hact | hmis
  · simp [hact, SyncPlayManager.getLastPlaybackCommand]
  · by_cases hact : env.playback.player.isPlaybackActive
    · simp [hact, hmis, SyncPlayManager.getLastPlaybackCommand]
    · simp [hact, SyncPlayManager.getLastPlaybackCommand]

/-- Witness for C9: a ready session whose queue plays item "Z" receives a
command for item "A"; the command is dropped but recorded. -/
theorem processCommand_stores_droppedCommand_witness :
    (SyncPlayManager.processCommand mgrEnvMismatch mgrReady
        (some cmdUnpauseFuture)).1.getLastPlaybackCommand = some cmdUnpauseFuture
      ∧ (SyncPlayManager.processCommand mgrEnvMismatch mgrReady
          (some cmdUnpauseFuture)).1.playbackCore = mgrReady.playbackCore
      ∧ (SyncPlayManager.processCommand mgrEnvMismatch mgrReady
          (some cmdUnpauseFuture)).2 = [] :=
  processCommand_stores_droppedCommand mgrEnvMismatch mgrReady cmdUnpauseFuture 50
    rfl (by decide) rfl (Or.inr (by decide))

/-- Claim C1: applying a command and then immediately re-applying the
identical command while its `When` instant is still in the future locally
yields exactly one set of scheduled side effects: the second call detects
the duplicate, performs no scheduling and no player primitive, and leaves
the playback core (lastCommand and timers) unchanged. -/
theorem applyCommand_duplicate_future_noop (env : PlaybackEnv)
    (s : PlaybackCore) (c : PlaybackCommand)
    (hfresh : ∀ lc, s.lastCommand = some lc → sameCommand lc c = false)
    (hfuture : env.remoteToLocal c.When > env.now) :
    PlaybackCore.applyCommand env (PlaybackCore.applyCommand env s c).1 c
      = ((PlaybackCore.applyCommand env s c).1, []) := by
  have hfirst : PlaybackCore.applyCommand env s c
      = PlaybackCore.applyNewCommand env s c := by
    unfold PlaybackCore.applyCommand
    cases hlc : s.lastCommand with
    | none => rfl
    | some lc => simp [hfresh lc hlc]
  have hlast : (PlaybackCore.applyCommand env s c).1.lastCommand = some c := by
    rw [hfirst, applyNewCommand_lastCommand]
  conv_lhs => rw [PlaybackCore.applyCommand]
  rw [hlast]
  simp [sameCommand_self, hfuture]

/-- Witness for C1 at scenario S2: a future Unpause applied twice from a
fresh core. -/
theorem applyCommand_duplicate_future_noop_witness :
    PlaybackCore.applyCommand envFuture
        (PlaybackCore.applyCommand envFuture coreIdle cmdUnpauseFuture).1
        cmdUnpauseFuture
      = ((PlaybackCore.applyCommand envFuture coreIdle cmdUnpauseFuture).1, []) :=
  applyCommand_duplicate_future_noop envFuture coreIdle cmdUnpauseFuture
    (fun lc h => by simp [coreIdle] at h) (by decide)

/-- Counterexample to claim C3: a pending scheduled stop and a pending
sync timer survive `disableSyncPlay` untouched, so the session disable
does not cancel the scheduled command. -/
theorem disableSyncPlay_timer_survives :
    (SyncPlayManager.disableSyncPlay mgrArmed false).1.playbackCore.scheduledCommandTimeout
        = some (ScheduledAction.stopAt 5000)
      ∧ (SyncPlayManager.disableSyncPlay mgrArmed false).1.playbackCore.syncTimeout
        = some (SyncAction.enableSync 1500) := by
  constructor <;> rfl

/-- Claim C3 (amended): `disableSyncPlay` clears the manager's session and
command state (enabled-at instant, ready flag, last and queued commands)
and sets the playback core's `syncEnabled` to false, but it does not
cancel timers: the scheduled-command timer and the sync timer are exactly
as before the call. -/
theorem disableSyncPlay_state (s : SyncPlayManager) (showMessage : Bool) :
    (SyncPlayManager.disableSyncPlay s showMessage).1.playbackCore.scheduledCommandTimeout
        = s.playbackCore.scheduledCommandTimeout
      ∧ (SyncPlayManager.disableSyncPlay s showMessage).1.playbackCore.syncTimeout
        = s.playbackCore.syncTimeout
      ∧ (SyncPlayManager.disableSyncPlay s showMessage).1.playbackCore.syncEnabled = false
      ∧ (SyncPlayManager.disableSyncPlay s showMessage).1.syncPlayEnabledAt = none
      ∧ (SyncPlayManager.disableSyncPlay s showMessage).1.syncPlayReady = false
      ∧ (SyncPlayManager.disableSyncPlay s showMessage).1.lastPlaybackCommand = none
      ∧ (SyncPlayManager.disableSyncPlay s showMessage).1.queuedCommand = none := by
  refine ⟨rfl, rfl, rfl, rfl, rfl, rfl, rfl⟩

theorem randomOffsetMillis_bounds (r : Rat) (h0 : 0 ≤ r) (h1 : r < 1) :
    -50 ≤ randomOffsetMillis r ∧ randomOffsetMillis r ≤ 50 := by
  unfold randomOffsetMillis
  rw [round_eq]
  constructor
  · rw [Int.le_floor]
    push_cast
    nlinarith
  · have hlt : ((r - 1/2) * 100 + 1/2 : Rat) < ((51 : Int) : Rat) := by
      push_cast
      nlinarith
    have := Int.floor_lt.mpr hlt
    omega

/-- Counterexample to claim C4: with `Math.random()` drawing 0.5 the
forced-seek jitter is 0 ms, so the re-scheduled seek targets exactly the
previous target (50,000,000 ticks) — the jitter does not guarantee a
different target. -/
theorem applyCommand_duplicateSeek_zeroJitter :
    Effect.localSeek (some 50000000)
        ∈ (PlaybackCore.applyCommand envSeekDup coreSeekDup cmdSeekDup).2
      ∧ cmdSeekDup.PositionTicks = some 50000000 := by
  have hj : randomOffsetMillis envSeekDup.rand = 0 := by
    norm_num [randomOffsetMillis, envSeekDup, round_eq]
  have htgt : ((cmdSeekDup.PositionTicks.getD 0 : Int) : Rat)
      + ((randomOffsetMillis envSeekDup.rand : Int) : Rat) * TicksPerMillisecond
      = 50000000 := by
    rw [hj]
    norm_num [cmdSeekDup, TicksPerMillisecond]
  have happly : PlaybackCore.applyCommand envSeekDup coreSeekDup cmdSeekDup
      = PlaybackCore.scheduleSeek envSeekDup coreSeekDup cmdSeekDup.When
          (some 50000000) := by
    unfold PlaybackCore.applyCommand
    rw [show coreSeekDup.lastCommand = some cmdSeekDup from rfl]
    simp only [sameCommand_self, if_true]
    rw [if_neg (show ¬ envSeekDup.remoteToLocal cmdSeekDup.When > envSeekDup.now by
      norm_num [envSeekDup, cmdSeekDup])]
    simp only [show cmdSeekDup.Command = CommandKind.seekCmd from rfl,
      show envSeekDup.player.isPlaying = true from rfl, Bool.true_or]
    rw [if_pos trivial, htgt]
  rw [happly]
  constructor
  · unfold PlaybackCore.scheduleSeek PlaybackCore.clearScheduledCommand
    rw [if_neg (show ¬ envSeekDup.remoteToLocal cmdSeekDup.When > envSeekDup.now by
      norm_num [envSeekDup, cmdSeekDup])]
    simp [PlaybackCore.localUnpause, PlaybackCore.localSeek, envSeekDup, playerSeekDup]
  · rfl

/-- Claim C4 (amended): a duplicate Seek reasserted after its scheduled
instant with the player playing or its position differing from the
commanded ticks is re-scheduled with a forced-seek jitter of
`Math.round((Math.random() - 0.5) * 100)` milliseconds converted to ticks
and added to the target; the jitter is an integer in [-50, +50], but it
can be 0, so the new target is only guaranteed to differ from the previous
one when the drawn value is nonzero. -/
theorem applyCommand_duplicateSeek_jitter (env : PlaybackEnv)
    (s : PlaybackCore) (c lc : PlaybackCommand)
    (hlast : s.lastCommand = some lc) (hdup : sameCommand lc c = true)
    (hkind : c.Command = CommandKind.seekCmd)
    (hpast : ¬ env.remoteToLocal c.When > env.now)
    (hmis : env.player.isPlaying = true
      ∨ some (round (env.player.currentTimeMs * TicksPerMillisecond))
          ≠ c.PositionTicks)
    (h0 : 0 ≤ env.rand) (h1 : env.rand < 1) :
    PlaybackCore.applyCommand env s c
        = PlaybackCore.scheduleSeek env s c.When
            (some (((c.PositionTicks.getD 0 : Int) : Rat)
              + ((randomOffsetMillis env.rand : Int) : Rat) * TicksPerMillisecond))
      ∧ -50 ≤ randomOffsetMillis env.rand
      ∧ randomOffsetMillis env.rand ≤ 50 := by
  refine ⟨?_, (randomOffsetMillis_bounds env.rand h0 h1).1,
    (randomOffsetMillis_bounds env.rand h0 h1).2⟩
  unfold PlaybackCore.applyCommand
  rw [hlast]
  simp only [hdup, if_true, hkind]
  rw [if_neg hpast]
  rcases hmis with hact | hmis
  · simp [hact]
  · by_cases hact : env.player.isPlaying
    · simp [hact]
    · simp [hact, hmis]

/-- Witness for the amended C4: the concrete duplicate Seek of the
counterexample scenario. -/
theorem applyCommand_duplicateSeek_jitter_witness :
    PlaybackCore.applyCommand envSeekDup coreSeekDup cmdSeekDup
        = PlaybackCore.scheduleSeek envSeekDup coreSeekDup cmdSeekDup.When
            (some (((cmdSeekDup.PositionTicks.getD 0 : Int) : Rat)
              + ((randomOffsetMillis envSeekDup.rand : Int) : Rat)
                  * TicksPerMillisecond))
      ∧ -50 ≤ randomOffsetMillis envSeekDup.rand
      ∧ randomOffsetMillis envSeekDup.rand ≤ 50 :=
  applyCommand_duplicateSeek_jitter envSeekDup coreSeekDup cmdSeekDup cmdSeekDup
    rfl (sameCommand_self cmdSeekDup) rfl (by decide) (Or.inl rfl)
    (by norm_num [envSeekDup]) (by norm_num [envSeekDup])
